import Mathlib

/-!
Shallow embedding of the rinha-go payment pipeline.

The repository contains three Go variants of the same service:
* `src/api/main.go`        — embedded below as namespace `ApiMain`;
* `src/unnamed/part_000`   — embedded below as namespace `PartZero`;
* `src/unnamed/part_001`   — embedded below as namespace `PartOne`.

Modelling conventions, used uniformly:
* timestamps (`time.Time` / RFC3339 strings) are abstract instants in `ℕ`;
  the Go zero value `time.Time\x7b\x7d` — also what `time.Parse` yields on a
  parse error — is the minimum instant `0`;
* monetary amounts (`float32` / `float64`) are `ℚ`; float rounding is out of
  scope of the claims checked here;
* a buffered Go channel is a `List` bounded by its capacity; a non-blocking
  `select` send succeeds exactly when the buffer is below capacity;
* a downstream HTTP call is summarised by its observed result,
  `Option ℕ`: `none` is a transport error (`http.Post` returns a nil
  response and a non-nil error), `some s` is a response with status `s`;
* decoded JSON bodies are values of the `Json` inductive below; a request
  body that is not syntactically valid JSON is `Option.none`.
-/

/-- JSON values as produced by Go's encoding/json decoder (numbers decode to
float64, modelled as `ℚ`; objects decode to string-keyed maps, modelled as
association lists). -/
inductive Json where
  | null
  | bool (b : Bool)
  | num (q : ℚ)
  | str (s : String)
  | arr (elems : List Json)
  | obj (fields : List (String × Json))

namespace ApiMain

/-- The `Payment` struct of src/api/main.go: json tags `correlationId`,
`amount`, `processor`, `requestedAt`.  `RequestedAt` is an RFC3339 string in
Go, abstracted to an instant; it is always overwritten by the worker before
any use. -/
structure Payment where
  correlationId : String
  amount : ℚ
  processor : String
  requestedAt : ℕ
deriving DecidableEq

/-- Go zero value of `Payment`, which is what a failed `json.Decode` leaves
behind for a syntactically invalid body. -/
def zeroPayment : Payment := { correlationId := "", amount := 0, processor := "", requestedAt := 0 }

/-- Capacity of `paymentsQueue = make(chan Payment, 10000)`. -/
def queueCapacity : ℕ := 10000

/-- String field extraction as done by encoding/json when decoding into a
struct: a present string value is taken, anything else leaves the Go zero
value `""`. -/
def lookupStr (fields : List (String × Json)) (k : String) : String :=
  match fields.lookup k with
  | some (Json.str s) => s
  | _ => ""

/-- Number field extraction: a present numeric value is taken, anything else
leaves the zero value `0`. -/
def lookupNum (fields : List (String × Json)) (k : String) : ℚ :=
  match fields.lookup k with
  | some (Json.num q) => q
  | _ => 0

/-- Whether `json.NewDecoder(r.Body).Decode(&payment)` succeeds at the top
level: the body must be valid JSON whose top-level value is an object. -/
def bodyDecodes : Option Json → Bool
  | some (Json.obj _) => true
  | _ => false

/-- Result of `json.NewDecoder(r.Body).Decode(&payment)` in `postPayment`,
with the error ignored: a body that fails to decode leaves the zero-valued
struct.  (The intake-supplied `requestedAt` string is abstracted to `0`; the
worker overwrites it before any use.) -/
def decodePayment : Option Json → Payment
  | some (Json.obj fields) =>
    { correlationId := lookupStr fields "correlationId"
      amount := lookupNum fields "amount"
      processor := lookupStr fields "processor"
      requestedAt := 0 }
  | _ => zeroPayment

/-- Outcome of one call of the `postPayment` handler. -/
inductive PostResult where
  /-- The handler returned, with the final HTTP status and the new queue
  contents.  `postPayment` never writes a header, so net/http sends `200`. -/
  | responded (status : ℕ) (queue : List Payment)
  /-- The unconditional channel send `paymentsQueue <- payment` found the
  buffer full: the handler goroutine suspends and no response is sent. -/
  | blocked
deriving DecidableEq

/-- The `postPayment` handler of src/api/main.go: decode the body ignoring
any error, then send the struct on `paymentsQueue`.  The send is the plain
blocking send operator, so with the buffer at capacity the caller suspends;
otherwise the handler returns without writing a status, which net/http turns
into `200 OK`. -/
def postPayment (body : Option Json) (q : List Payment) : PostResult :=
  let payment := decodePayment body
  if q.length < queueCapacity then
    PostResult.responded 200 (q ++ [payment])
  else
    PostResult.blocked

/-- A row of the `payments` table created in `connectToDatabase`:
`correlation_id text primary key, amount real, requested_at timestamp,
processor boolean`.  Per the inserts in `paymentWorker`, `processor = false`
marks the default processor and `processor = true` the fallback. -/
structure OutcomeEntry where
  correlationId : String
  amount : ℚ
  processor : Bool
  requestedAt : ℕ
deriving DecidableEq

/-- Effect of `db.NamedExec("insert into payments ...")` on the table: the
`correlation_id` primary key rejects a duplicate insert (the returned error
is only logged), so the table is updated exactly when the key is new. -/
def insertPayment (tbl : List OutcomeEntry) (e : OutcomeEntry) : List OutcomeEntry :=
  if (tbl.map (fun r => r.correlationId)).contains e.correlationId then tbl
  else tbl ++ [e]

/-- Everything one iteration of the `paymentWorker` loop body does with a
dequeued payment. -/
structure StepResult where
  /-- The dispatch record actually posted: the payment with `RequestedAt`
  restamped to the current instant right after dequeue. -/
  record : Payment
  /-- Whether the default endpoint was posted to (always). -/
  defaultAttempted : Bool
  /-- Whether the fallback endpoint was posted to. -/
  fallbackAttempted : Bool
  /-- The row handed to `db.NamedExec`, when any. -/
  inserted : Option OutcomeEntry
  /-- The payment sent back on `paymentsQueue`, when any. -/
  requeued : Option Payment
  /-- The code ignores the error of `http.Post` (`res, _ :=`); on a
  transport error `res` is nil and `res.StatusCode` panics. -/
  panicked : Bool
  /-- Whether control reaches the top of the `for ... range` loop again
  (`false` on every `return` statement and on a panic). -/
  workerContinues : Bool
deriving DecidableEq

/-- One iteration of `paymentWorker`'s loop in src/api/main.go, given the
observed results of the default and fallback POSTs: stamp
`payment.RequestedAt = time.Now()`, POST to the default processor; on a
non-200 status POST to the fallback; on a non-200 status there, requeue the
payment and `return`; on fallback success insert the row with
`processor = true` and `return`; on default success insert the row with
`processor = false` and continue looping. -/
def paymentWorkerStep (now : ℕ) (defaultResp fallbackResp : Option ℕ) (p : Payment) :
    StepResult :=
  let record : Payment := { p with requestedAt := now }
  match defaultResp with
  | none =>
    { record := record, defaultAttempted := true, fallbackAttempted := false,
      inserted := none, requeued := none, panicked := true, workerContinues := false }
  | some ds =>
    if ds ≠ 200 then
      match fallbackResp with
      | none =>
        { record := record, defaultAttempted := true, fallbackAttempted := true,
          inserted := none, requeued := none, panicked := true, workerContinues := false }
      | some fs =>
        if fs ≠ 200 then
          { record := record, defaultAttempted := true, fallbackAttempted := true,
            inserted := none, requeued := some record, panicked := false,
            workerContinues := false }
        else
          { record := record, defaultAttempted := true, fallbackAttempted := true,
            inserted := some { correlationId := record.correlationId, amount := record.amount,
                               processor := true, requestedAt := record.requestedAt },
            requeued := none, panicked := false, workerContinues := false }
    else
      { record := record, defaultAttempted := true, fallbackAttempted := false,
        inserted := some { correlationId := record.correlationId, amount := record.amount,
                           processor := false, requestedAt := record.requestedAt },
        requeued := none, panicked := false, workerContinues := true }

/-- The `total_requests`/`total_amount` pair of one processor bucket.
(`TotalRequests` is an int16 in Go; counts are abstracted to `ℕ`.) -/
structure PaymentProcessorSummary where
  totalRequests : ℕ
  totalAmount : ℚ
deriving DecidableEq

/-- The two-bucket summary returned by `getPaymentsSummary`. -/
structure PaymentsSummary where
  default : PaymentProcessorSummary
  fallback : PaymentProcessorSummary
deriving DecidableEq

/-- The WHERE clause of the summary query:
`requested_at >= $1 and requested_at <= $2`, both bounds inclusive. -/
def queryRange (tbl : List OutcomeEntry) (tFrom tTo : ℕ) : List OutcomeEntry :=
  tbl.filter (fun e => decide (tFrom ≤ e.requestedAt) && decide (e.requestedAt ≤ tTo))

/-- One row's contribution to the GROUP BY: `count(*)` adds one and
`sum(amount)` adds the row's amount, in the bucket selected by the
`processor` boolean — the handler's switch maps the scanned value `"false"`
to the `default` bucket and `"true"` to the `fallback` bucket. -/
def stepRow (acc : PaymentsSummary) (e : OutcomeEntry) : PaymentsSummary :=
  if e.processor then
    { acc with fallback := { totalRequests := acc.fallback.totalRequests + 1,
                             totalAmount := acc.fallback.totalAmount + e.amount } }
  else
    { acc with default := { totalRequests := acc.default.totalRequests + 1,
                            totalAmount := acc.default.totalAmount + e.amount } }

/-- The SQL aggregation plus the bucket-assigning switch of
`getPaymentsSummary`: scan the rows in the window and reduce each group to
count and sum. -/
def summarize (tbl : List OutcomeEntry) (tFrom tTo : ℕ) : PaymentsSummary :=
  (queryRange tbl tFrom tTo).foldl stepRow
    { default := { totalRequests := 0, totalAmount := 0 },
      fallback := { totalRequests := 0, totalAmount := 0 } }

/-- The `getPaymentsSummary` handler of src/api/main.go.  Both query
parameters go through `time.Parse` with the error ignored, so an omitted (or
unparsable) `from` **and an omitted `to`** are each replaced by the zero
`time.Time` — the minimum instant — not by the current time. -/
def getPaymentsSummary (tbl : List OutcomeEntry) (fromParam toParam : Option ℕ) :
    PaymentsSummary :=
  summarize tbl (fromParam.getD 0) (toParam.getD 0)

end ApiMain

namespace PartOne

/-- The `Payment` struct of src/unnamed/part_001: `CorrelationId`,
`Ammount` (json tag `amount` on the wire out, but filled from the raw input
key `ammount` by the handler), and `RequestedAt`, a `time.Time` set at
intake. -/
structure Payment where
  correlationId : String
  ammount : ℚ
  requestedAt : ℕ
deriving DecidableEq

/-- Capacity of `paymentQueue = make(chan Payment, MaxQueueSize)`. -/
def MaxQueueSize : ℕ := 100000

/-- The only downstream endpoint part_001 ever posts to. -/
def ExternalPaymentAPIURL : String := "http://payment-processor-default:8080/payments"

/-- The manual field mapping in `paymentHandler`: the correlation id is the
string under `correlationId` (zero value `""` otherwise), and the amount is
the float64 under the key `ammount` (zero value `0` otherwise) — the key
`amount` is never consulted.  `RequestedAt` is stamped `time.Now()` at
intake. -/
def decodeHandlerPayment (now : ℕ) (input : List (String × Json)) : Payment :=
  { correlationId :=
      match input.lookup "correlationId" with
      | some (Json.str s) => s
      | _ => ""
    ammount :=
      match input.lookup "ammount" with
      | some (Json.num q) => q
      | _ => 0
    requestedAt := now }

/-- The `paymentHandler` of part_001 (POST path): a body that does not
decode into a JSON object answers `400`; otherwise the mapped payment is
offered to the queue through `select` with a `default` branch — an
immediate `202` when the buffer has room, an immediate `503` with the queue
untouched when it is full.  The handler never suspends. -/
def paymentHandler (now : ℕ) (body : Option (List (String × Json)))
    (q : List Payment) : ℕ × List Payment :=
  match body with
  | none => (400, q)
  | some input =>
    let p := decodeHandlerPayment now input
    if q.length < MaxQueueSize then (202, q ++ [p]) else (503, q)

/-- Go map assignment `processedPayments[p.CorrelationId] = p` on an
association list whose keys mirror the map's keys: replace the value when
the key exists, append otherwise. -/
def mapInsert (m : List (String × Payment)) (p : Payment) : List (String × Payment) :=
  if (m.map Prod.fst).contains p.correlationId then
    m.map (fun kv => if kv.1 = p.correlationId then (kv.1, p) else kv)
  else
    m ++ [(p.correlationId, p)]

/-- Everything one iteration of part_001's `worker` loop does with a
dequeued payment. -/
structure WorkerStep where
  /-- URLs posted to during the iteration. -/
  postedTo : List String
  /-- The `processedPayments` map after the iteration. -/
  store : List (String × Payment)
deriving DecidableEq

/-- One iteration of `worker` in part_001, given the observed result of its
single POST: the payment is serialised and posted to
`ExternalPaymentAPIURL`; on a transport error or a non-200 status the loop
`continue`s with the store untouched (no fallback endpoint exists and
nothing is requeued); only on a 200 is the payment written into
`processedPayments` under its correlation id. -/
def worker (resp : Option ℕ) (p : Payment) (store : List (String × Payment)) :
    WorkerStep :=
  match resp with
  | none => { postedTo := [ExternalPaymentAPIURL], store := store }
  | some s =>
    if s ≠ 200 then { postedTo := [ExternalPaymentAPIURL], store := store }
    else { postedTo := [ExternalPaymentAPIURL], store := mapInsert store p }

/-- The per-bucket summary struct of part_001. -/
structure PaymentSummary where
  totalRequests : ℕ
  totalAmount : ℚ
deriving DecidableEq

/-- The response struct of part_001's summary handler. -/
structure PaymentsSummaryResponse where
  default : PaymentSummary
  fallback : PaymentSummary
deriving DecidableEq

/-- Loop body of part_001's summary scan: an entry whose `RequestedAt` lies
in the inclusive window `[tFrom, tTo]` bumps the (single, default)
accumulator's count and amount; any other entry is skipped. -/
def summaryStep (tFrom tTo : ℕ) (acc : PaymentSummary) (kv : String × Payment) :
    PaymentSummary :=
  if tFrom ≤ kv.2.requestedAt ∧ kv.2.requestedAt ≤ tTo then
    { totalRequests := acc.totalRequests + 1,
      totalAmount := acc.totalAmount + kv.2.ammount }
  else acc

/-- The `paymentsSummaryHandler` of part_001 (GET path, well-formed
parameters): an omitted `from` is the zero `time.Time` (the minimum
instant) and an omitted `to` is `time.Now()`.  The handler then folds over
`processedPayments`, counting and summing every entry whose `RequestedAt`
lies in the inclusive window — always into the `default` bucket; the
`fallback` bucket is never touched. -/
def paymentsSummaryHandler (store : List (String × Payment))
    (fromParam toParam : Option ℕ) (now : ℕ) : PaymentsSummaryResponse :=
  let fromTime := fromParam.getD 0
  let toTime := toParam.getD now
  { default := store.foldl (summaryStep fromTime toTime)
      { totalRequests := 0, totalAmount := 0 },
    fallback := { totalRequests := 0, totalAmount := 0 } }

end PartOne

namespace PartZero

/-- The `Payment` struct of src/unnamed/part_000. -/
structure Payment where
  correlationId : String
  amount : ℚ
deriving DecidableEq

/-- A row of part_000's two-column `payments` table
(`correlation_id text primary key, amount real`). -/
structure Row where
  correlationId : String
  amount : ℚ
deriving DecidableEq

/-- Effect of `db.Exec("insert into payments ...")`: the primary key rejects
a duplicate (the result and error are discarded), so the table changes
exactly when the key is new. -/
def insertRow (tbl : List Row) (r : Row) : List Row :=
  if (tbl.map (fun x => x.correlationId)).contains r.correlationId then tbl
  else tbl ++ [r]

/-- One iteration of part_000's `paymentWorker` loop, given the observed
result of the POST to the default processor: the response (and any error)
is discarded and the row is inserted **unconditionally** — the insert does
not depend on the response at all (hence the deliberately unused binder). -/
def paymentWorkerStep (_resp : Option ℕ) (p : Payment) (tbl : List Row) : List Row :=
  insertRow tbl { correlationId := p.correlationId, amount := p.amount }

end PartZero

set_option maxRecDepth 4000 in
/-- C1 (counterexample).  The claim says every submit answers `202` on
admission and `503` when the queue is full.  src/api/main.go's `postPayment`
does neither: a successfully admitted payment is answered with the implicit
`200` (the handler never writes a status), and with the queue at capacity
the unconditional channel send suspends the caller instead of answering
`503`. -/
theorem apiMain_postPayment_never_202_and_blocks_when_full :
    ApiMain.postPayment
        (some (Json.obj [("correlationId", Json.str "a1"), ("amount", Json.num 100)])) []
      = ApiMain.PostResult.responded 200
          [{ correlationId := "a1", amount := 100, processor := "", requestedAt := 0 }]
    ∧ (200 : ℕ) ≠ 202
    ∧ (200 : ℕ) ≠ 503
    ∧ ApiMain.postPayment
        (some (Json.obj [("correlationId", Json.str "a1"), ("amount", Json.num 100)]))
        (List.replicate ApiMain.queueCapacity ApiMain.zeroPayment)
      = ApiMain.PostResult.blocked := by
  refine ⟨rfl, by decide, by decide, ?_⟩
  unfold ApiMain.postPayment
  simp only [List.length_replicate]
  rw [if_neg (lt_irrefl _)]

/-- C1 (amended).  part_001's `paymentHandler` is the intake that behaves
as claimed: admission is non-blocking — below capacity the payment is
enqueued and the handler answers `202`, and at capacity the handler answers
`503` immediately with the queue unchanged. -/
theorem partOne_paymentHandler_nonblocking (now : ℕ)
    (input : List (String × Json)) (q : List PartOne.Payment) :
    (q.length < PartOne.MaxQueueSize →
      PartOne.paymentHandler now (some input) q
        = (202, q ++ [PartOne.decodeHandlerPayment now input]))
    ∧ (PartOne.MaxQueueSize ≤ q.length →
      PartOne.paymentHandler now (some input) q = (503, q)) := by
  constructor
  · intro h
    simp [PartOne.paymentHandler, h]
  · intro h
    simp [PartOne.paymentHandler, Nat.not_lt.mpr h]

/-- C1 (witness): both branches of the amended theorem at concrete inputs —
an empty queue admits with `202`, a queue at capacity rejects with `503`. -/
theorem partOne_paymentHandler_nonblocking_witness :
    PartOne.paymentHandler 0 (some []) []
      = (202, [] ++ [PartOne.decodeHandlerPayment 0 []])
    ∧ PartOne.paymentHandler 0 (some [])
        (List.replicate PartOne.MaxQueueSize
          { correlationId := "", ammount := 0, requestedAt := 0 })
      = (503, List.replicate PartOne.MaxQueueSize
          { correlationId := "", ammount := 0, requestedAt := 0 }) :=
  ⟨(partOne_paymentHandler_nonblocking 0 [] []).1 (by decide),
   (partOne_paymentHandler_nonblocking 0 []
      (List.replicate PartOne.MaxQueueSize
        { correlationId := "", ammount := 0, requestedAt := 0 })).2
      (by rw [List.length_replicate])⟩

/-- C2 (counterexample).  part_001's `worker` never attempts a fallback
processor: on a failed default attempt (status 500) the only URL posted to
is the default endpoint, nothing is recorded, and the loop just continues —
refuting, for this worker, that the fallback is attempted whenever the
default attempt fails. -/
theorem partOne_worker_has_no_fallback :
    (PartOne.worker (some 500)
        { correlationId := "a1", ammount := 100, requestedAt := 3 } []).postedTo
      = [PartOne.ExternalPaymentAPIURL]
    ∧ (PartOne.worker (some 500)
        { correlationId := "a1", ammount := 100, requestedAt := 3 } []).store = []
    ∧ PartOne.ExternalPaymentAPIURL = "http://payment-processor-default:8080/payments" := by
  refine ⟨rfl, by decide, rfl⟩

/-- C2 (amended).  In src/api/main.go's `paymentWorker` the dispatch
protocol is as claimed: the default endpoint is always tried first; the
fallback endpoint is attempted exactly when the default attempt came back
with a non-200 status; a successful default attempt records a row tagged
`processor = false` (the default bucket of the summary) and a successful
fallback attempt records a row tagged `processor = true` (the fallback
bucket).  (A transport-level error is not routed to the fallback: it
panics on the nil response, see `StepResult.panicked`.) -/
theorem apiMain_dispatch_default_then_fallback (now : ℕ)
    (defaultResp fallbackResp : Option ℕ) (p : ApiMain.Payment) :
    (ApiMain.paymentWorkerStep now defaultResp fallbackResp p).defaultAttempted = true
    ∧ ((ApiMain.paymentWorkerStep now defaultResp fallbackResp p).fallbackAttempted = true
        ↔ ∃ ds, defaultResp = some ds ∧ ds ≠ 200)
    ∧ (defaultResp = some 200 →
        (ApiMain.paymentWorkerStep now defaultResp fallbackResp p).inserted
          = some { correlationId := p.correlationId, amount := p.amount,
                   processor := false, requestedAt := now })
    ∧ (∀ ds, defaultResp = some ds → ds ≠ 200 → fallbackResp = some 200 →
        (ApiMain.paymentWorkerStep now defaultResp fallbackResp p).inserted
          = some { correlationId := p.correlationId, amount := p.amount,
                   processor := true, requestedAt := now }) := by
  refine ⟨?_, ?_, ?_, ?_⟩
  · cases defaultResp with
    | none => rfl
    | some ds =>
      by_cases h : ds = 200
      · simp [ApiMain.paymentWorkerStep, h]
      · cases fallbackResp with
        | none => simp [ApiMain.paymentWorkerStep, h]
        | some fs =>
          by_cases h2 : fs = 200 <;> simp [ApiMain.paymentWorkerStep, h, h2]
  · cases defaultResp with
    | none => simp [ApiMain.paymentWorkerStep]
    | some ds =>
      by_cases h : ds = 200
      · simp [ApiMain.paymentWorkerStep, h]
      · cases fallbackResp with
        | none => simp [ApiMain.paymentWorkerStep, h]
        | some fs =>
          by_cases h2 : fs = 200 <;> simp [ApiMain.paymentWorkerStep, h, h2]
  · intro h
    subst h
    simp [ApiMain.paymentWorkerStep]
  · intro ds hds hne hfb
    subst hds
    subst hfb
    simp [ApiMain.paymentWorkerStep, hne]

/-- C2 (witness): the amended theorem applied at concrete responses — a 200
from the default records the default-tagged row, a 500 from the default
followed by a 200 from the fallback attempts the fallback and records the
fallback-tagged row. -/
theorem apiMain_dispatch_default_then_fallback_witness :
    (ApiMain.paymentWorkerStep 1 (some 200) (some 200)
        { correlationId := "a1", amount := 100, processor := "", requestedAt := 0 }).inserted
      = some { correlationId := "a1", amount := 100, processor := false, requestedAt := 1 }
    ∧ (ApiMain.paymentWorkerStep 1 (some 500) (some 200)
        { correlationId := "a1", amount := 100, processor := "", requestedAt := 0 }).fallbackAttempted
      = true
    ∧ (ApiMain.paymentWorkerStep 1 (some 500) (some 200)
        { correlationId := "a1", amount := 100, processor := "", requestedAt := 0 }).inserted
      = some { correlationId := "a1", amount := 100, processor := true, requestedAt := 1 } :=
  ⟨(apiMain_dispatch_default_then_fallback 1 (some 200) (some 200) _).2.2.1 rfl,
   (apiMain_dispatch_default_then_fallback 1 (some 500) (some 200) _).2.1.mpr
      ⟨500, rfl, by decide⟩,
   (apiMain_dispatch_default_then_fallback 1 (some 500) (some 200) _).2.2.2 500 rfl
      (by decide) rfl⟩

/-- C3 (code bug, evaluated at the failing input).  With both processors
answering 500, src/api/main.go's worker does requeue the payment and
records no outcome — but then executes `return` instead of continuing the
loop: `workerContinues = false`, so the goroutine terminates and the pool
silently shrinks, exactly the variant behavior §9 of the spec flags as a
bug. -/
theorem apiMain_worker_terminates_after_requeue :
    ApiMain.paymentWorkerStep 7 (some 500) (some 500)
        { correlationId := "a1", amount := 100, processor := "", requestedAt := 0 }
      = { record := { correlationId := "a1", amount := 100, processor := "", requestedAt := 7 },
          defaultAttempted := true, fallbackAttempted := true,
          inserted := none,
          requeued := some { correlationId := "a1", amount := 100, processor := "",
                             requestedAt := 7 },
          panicked := false, workerContinues := false } := by
  decide

/-- C4 (code bug, evaluated at the failing input).  part_000's worker
discards the response of its POST and inserts the outcome row
unconditionally: with the processor answering 500 — or unreachable — the
row for `a1` is written anyway, violating the store invariant that an entry
exists only for payments some processor accepted.  (part_000 is moreover
dead code: it does not compile, since `response` and `err` are declared and
unused.) -/
theorem partZero_worker_inserts_despite_failure :
    PartZero.paymentWorkerStep (some 500) { correlationId := "a1", amount := 100 } []
      = [{ correlationId := "a1", amount := 100 }]
    ∧ PartZero.paymentWorkerStep none { correlationId := "a1", amount := 100 } []
      = [{ correlationId := "a1", amount := 100 }] := by
  constructor <;> decide

/-- C6 (counterexample).  In part_001 the `requestedAt` stamp happens at
intake, not after dequeue: `paymentHandler` at instant 3 enqueues the
payment already stamped `requestedAt = 3`, and `worker` — which takes no
clock at all and never restamps — stores that very record, so the outcome
carries admission time whatever the processing moment was. -/
theorem partOne_requestedAt_stamped_at_intake :
    PartOne.paymentHandler 3
        (some [("correlationId", Json.str "a1"), ("ammount", Json.num 100)]) []
      = (202, [{ correlationId := "a1", ammount := 100, requestedAt := 3 }])
    ∧ (PartOne.worker (some 200)
        { correlationId := "a1", ammount := 100, requestedAt := 3 } []).store
      = [("a1", { correlationId := "a1", ammount := 100, requestedAt := 3 })] := by
  exact ⟨rfl, by decide⟩

/-- C6 (amended).  In src/api/main.go the claim is exact: whatever
`requestedAt` a payment carried into the queue, the worker's dispatch
record — and any outcome row it inserts or payment it requeues — bears the
instant at which the worker began processing it. -/
theorem apiMain_requestedAt_stamped_after_dequeue (now : ℕ)
    (defaultResp fallbackResp : Option ℕ) (p : ApiMain.Payment) :
    (ApiMain.paymentWorkerStep now defaultResp fallbackResp p).record.requestedAt = now
    ∧ ((ApiMain.paymentWorkerStep now defaultResp fallbackResp p).inserted.map
        (fun e => e.requestedAt)).getD now = now
    ∧ ((ApiMain.paymentWorkerStep now defaultResp fallbackResp p).requeued.map
        (fun r => r.requestedAt)).getD now = now := by
  cases defaultResp with
  | none => exact ⟨rfl, rfl, rfl⟩
  | some ds =>
    by_cases h : ds = 200
    · simp [ApiMain.paymentWorkerStep, h]
    · cases fallbackResp with
      | none => simp [ApiMain.paymentWorkerStep, h]
      | some fs =>
        by_cases h2 : fs = 200 <;> simp [ApiMain.paymentWorkerStep, h, h2]

/-- C9 (confirmed).  src/api/main.go's `postPayment` ignores the result of
`json.Decode`: any body that fails to decode leaves the zero-valued struct,
which is enqueued all the same, and — the queue having room — the handler
returns having written nothing, which net/http answers as `200` (neither a
client-error status nor `202`). -/
theorem apiMain_postPayment_ignores_decode_failure
    (body : Option Json) (q : List ApiMain.Payment)
    (hdec : ApiMain.bodyDecodes body = false)
    (hq : q.length < ApiMain.queueCapacity) :
    ApiMain.postPayment body q
      = ApiMain.PostResult.responded 200 (q ++ [ApiMain.zeroPayment]) := by
  have hz : ApiMain.decodePayment body = ApiMain.zeroPayment := by
    cases body with
    | none => rfl
    | some j => cases j <;> first | rfl | simp [ApiMain.bodyDecodes] at hdec
  unfold ApiMain.postPayment
  rw [hz, if_pos hq]

/-- C9 (witness): the theorem at the syntactically invalid body `none` and
the empty queue. -/
theorem apiMain_postPayment_ignores_decode_failure_witness :
    ApiMain.postPayment none []
      = ApiMain.PostResult.responded 200 ([] ++ [ApiMain.zeroPayment]) :=
  apiMain_postPayment_ignores_decode_failure none [] rfl (by decide)

/-- C10 (confirmed).  part_001's handler reads the amount only from the raw
key `ammount`: the admitted amount is a function of that key alone, a
numeric value under it is taken verbatim, any non-numeric value — or its
absence, as with a body spelling the key `amount` — yields amount `0`, and
a missing or non-string `correlationId` yields the empty correlation id. -/
theorem partOne_amount_read_only_from_ammount_key (now now' : ℕ)
    (input input' : List (String × Json)) :
    (input.lookup "ammount" = input'.lookup "ammount" →
      (PartOne.decodeHandlerPayment now input).ammount
        = (PartOne.decodeHandlerPayment now' input').ammount)
    ∧ (∀ q : ℚ, input.lookup "ammount" = some (Json.num q) →
      (PartOne.decodeHandlerPayment now input).ammount = q)
    ∧ (∀ j : Json, input.lookup "ammount" = some j → (∀ q : ℚ, j ≠ Json.num q) →
      (PartOne.decodeHandlerPayment now input).ammount = 0)
    ∧ (input.lookup "ammount" = none →
      (PartOne.decodeHandlerPayment now input).ammount = 0)
    ∧ (∀ j : Json, input.lookup "correlationId" = some j → (∀ s : String, j ≠ Json.str s) →
      (PartOne.decodeHandlerPayment now input).correlationId = "")
    ∧ (input.lookup "correlationId" = none →
      (PartOne.decodeHandlerPayment now input).correlationId = "") := by
  refine ⟨?_, ?_, ?_, ?_, ?_, ?_⟩
  · intro h
    simp only [PartOne.decodeHandlerPayment, h]
  · intro q h
    simp only [PartOne.decodeHandlerPayment, h]
  · intro j h hj
    cases j <;> simp only [PartOne.decodeHandlerPayment, h]
    exact absurd rfl (hj _)
  · intro h
    simp only [PartOne.decodeHandlerPayment, h]
  · intro j h hj
    cases j <;> simp only [PartOne.decodeHandlerPayment, h]
    exact absurd rfl (hj _)
  · intro h
    simp only [PartOne.decodeHandlerPayment, h]

/-- C10 (witness): the theorem at concrete bodies — a body using the key
`amount` yields amount `0`, a string under `ammount` yields `0`, a numeric
`correlationId` yields the empty id, and a numeric `ammount` is taken. -/
theorem partOne_amount_read_only_from_ammount_key_witness :
    (PartOne.decodeHandlerPayment 0
        [("correlationId", Json.str "a1"), ("amount", Json.num 100)]).ammount = 0
    ∧ (PartOne.decodeHandlerPayment 0 [("ammount", Json.str "x")]).ammount = 0
    ∧ (PartOne.decodeHandlerPayment 0
        [("correlationId", Json.num 5), ("ammount", Json.num 100)]).correlationId = ""
    ∧ (PartOne.decodeHandlerPayment 0 [("ammount", Json.num 100)]).ammount = 100 :=
  ⟨(partOne_amount_read_only_from_ammount_key 0 0 _ []).2.2.2.1 rfl,
   (partOne_amount_read_only_from_ammount_key 0 0 _ []).2.2.1
      (Json.str "x") rfl (fun _ h => nomatch h),
   (partOne_amount_read_only_from_ammount_key 0 0 _ []).2.2.2.2.1
      (Json.num 5) rfl (fun _ h => nomatch h),
   (partOne_amount_read_only_from_ammount_key 0 0 _ []).2.1 100 rfl⟩

/-- Helper: the GROUP BY fold of `ApiMain.summarize`, over any row list and
any accumulator, adds to each bucket the count and amount-sum of the rows
carrying that bucket's processor tag. -/
theorem apiMain_summaryFold_spec (rows : List ApiMain.OutcomeEntry)
    (acc : ApiMain.PaymentsSummary) :
    (rows.foldl ApiMain.stepRow acc).default.totalRequests
      = acc.default.totalRequests + (rows.filter (fun e => !e.processor)).length
    ∧ (rows.foldl ApiMain.stepRow acc).default.totalAmount
      = acc.default.totalAmount
          + ((rows.filter (fun e => !e.processor)).map (fun e => e.amount)).sum
    ∧ (rows.foldl ApiMain.stepRow acc).fallback.totalRequests
      = acc.fallback.totalRequests + (rows.filter (fun e => e.processor)).length
    ∧ (rows.foldl ApiMain.stepRow acc).fallback.totalAmount
      = acc.fallback.totalAmount
          + ((rows.filter (fun e => e.processor)).map (fun e => e.amount)).sum := by
  induction rows generalizing acc with
  | nil => simp
  | cons e rows ih =>
    obtain ⟨ih1, ih2, ih3, ih4⟩ := ih (ApiMain.stepRow acc e)
    cases h : e.processor with
    | false =>
      have hstep : ApiMain.stepRow acc e
          = { acc with default := { totalRequests := acc.default.totalRequests + 1,
                                    totalAmount := acc.default.totalAmount + e.amount } } := by
        simp [ApiMain.stepRow, h]
      refine ⟨?_, ?_, ?_, ?_⟩
      · rw [List.foldl_cons, ih1, hstep]
        simp [List.filter_cons, h]
        omega
      · rw [List.foldl_cons, ih2, hstep]
        simp [List.filter_cons, h]
        ring
      · rw [List.foldl_cons, ih3, hstep]
        simp [List.filter_cons, h]
      · rw [List.foldl_cons, ih4, hstep]
        simp [List.filter_cons, h]
    | true =>
      have hstep : ApiMain.stepRow acc e
          = { acc with fallback := { totalRequests := acc.fallback.totalRequests + 1,
                                     totalAmount := acc.fallback.totalAmount + e.amount } } := by
        simp [ApiMain.stepRow, h]
      refine ⟨?_, ?_, ?_, ?_⟩
      · rw [List.foldl_cons, ih1, hstep]
        simp [List.filter_cons, h]
      · rw [List.foldl_cons, ih2, hstep]
        simp [List.filter_cons, h]
      · rw [List.foldl_cons, ih3, hstep]
        simp [List.filter_cons, h]
        omega
      · rw [List.foldl_cons, ih4, hstep]
        simp [List.filter_cons, h]
        ring

/-- C5 (confirmed).  `summarize` over any stored rows and any window counts
and sums, per bucket, exactly the rows whose `requestedAt` lies in the
window — both bounds inclusive (the window predicate is `tFrom ≤ t` and
`t ≤ tTo`) — with the `processor = true` (fallback-handled) rows landing in
the fallback bucket and the `processor = false` rows in the default
bucket. -/
theorem apiMain_summarize_partitions (tbl : List ApiMain.OutcomeEntry) (tFrom tTo : ℕ) :
    (ApiMain.summarize tbl tFrom tTo).default.totalRequests
      = (tbl.filter (fun e => !e.processor
          && (decide (tFrom ≤ e.requestedAt) && decide (e.requestedAt ≤ tTo)))).length
    ∧ (ApiMain.summarize tbl tFrom tTo).default.totalAmount
      = ((tbl.filter (fun e => !e.processor
          && (decide (tFrom ≤ e.requestedAt) && decide (e.requestedAt ≤ tTo)))).map
            (fun e => e.amount)).sum
    ∧ (ApiMain.summarize tbl tFrom tTo).fallback.totalRequests
      = (tbl.filter (fun e => e.processor
          && (decide (tFrom ≤ e.requestedAt) && decide (e.requestedAt ≤ tTo)))).length
    ∧ (ApiMain.summarize tbl tFrom tTo).fallback.totalAmount
      = ((tbl.filter (fun e => e.processor
          && (decide (tFrom ≤ e.requestedAt) && decide (e.requestedAt ≤ tTo)))).map
            (fun e => e.amount)).sum := by
  obtain ⟨h1, h2, h3, h4⟩ :=
    apiMain_summaryFold_spec (ApiMain.queryRange tbl tFrom tTo)
      { default := { totalRequests := 0, totalAmount := 0 },
        fallback := { totalRequests := 0, totalAmount := 0 } }
  unfold ApiMain.summarize
  rw [h1, h2, h3, h4]
  unfold ApiMain.queryRange
  rw [List.filter_filter, List.filter_filter]
  simp

/-- C7 (counterexample).  In src/api/main.go an omitted `to` (and an
omitted `from`) goes through `time.Parse` whose error is discarded, leaving
the zero `time.Time` — not the current time.  So a summary query with both
parameters omitted over a store holding one default-tagged entry at instant
5 returns all-zero totals, where the claimed full totals (window from the
minimum instant 0 up to now, e.g. 9) would be one request of amount 100. -/
theorem apiMain_summary_omitted_to_is_zero_time :
    ApiMain.getPaymentsSummary
        [{ correlationId := "a1", amount := 100, processor := false, requestedAt := 5 }]
        none none
      = { default := { totalRequests := 0, totalAmount := 0 },
          fallback := { totalRequests := 0, totalAmount := 0 } }
    ∧ (ApiMain.summarize
        [{ correlationId := "a1", amount := 100, processor := false, requestedAt := 5 }]
        0 9).default
      = { totalRequests := 1, totalAmount := 100 } := by
  constructor
  · rfl
  · show (ApiMain.stepRow ⟨⟨0, 0⟩, ⟨0, 0⟩⟩ ⟨"a1", 100, false, 5⟩).default
      = { totalRequests := 1, totalAmount := 100 }
    simp [ApiMain.stepRow]

/-- Helper: the summary fold of part_001's handler counts and sums, into
its single (default) accumulator, exactly the stored entries whose
`requestedAt` lies in the inclusive window. -/
theorem partOne_summaryFold_spec (store : List (String × PartOne.Payment))
    (tFrom tTo : ℕ) (acc : PartOne.PaymentSummary) :
    (store.foldl (PartOne.summaryStep tFrom tTo) acc).totalRequests
      = acc.totalRequests
          + (store.filter
              (fun kv => decide (tFrom ≤ kv.2.requestedAt ∧ kv.2.requestedAt ≤ tTo))).length
    ∧ (store.foldl (PartOne.summaryStep tFrom tTo) acc).totalAmount
      = acc.totalAmount
          + ((store.filter
              (fun kv => decide (tFrom ≤ kv.2.requestedAt ∧ kv.2.requestedAt ≤ tTo))).map
                (fun kv => kv.2.ammount)).sum := by
  induction store generalizing acc with
  | nil => simp
  | cons kv store ih =>
    by_cases h : tFrom ≤ kv.2.requestedAt ∧ kv.2.requestedAt ≤ tTo
    · obtain ⟨ih1, ih2⟩ :=
        ih { totalRequests := acc.totalRequests + 1,
             totalAmount := acc.totalAmount + kv.2.ammount }
      have hstep : PartOne.summaryStep tFrom tTo acc kv
          = { totalRequests := acc.totalRequests + 1,
              totalAmount := acc.totalAmount + kv.2.ammount } := by
        simp [PartOne.summaryStep, h]
      constructor
      · rw [List.foldl_cons, hstep, ih1]
        simp [List.filter_cons, h]
        omega
      · rw [List.foldl_cons, hstep, ih2]
        simp [List.filter_cons, h]
        ring
    · obtain ⟨ih1, ih2⟩ := ih acc
      have hstep : PartOne.summaryStep tFrom tTo acc kv = acc := by
        simp [PartOne.summaryStep, h]
      constructor
      · rw [List.foldl_cons, hstep, ih1]
        simp [List.filter_cons, h]
      · rw [List.foldl_cons, hstep, ih2]
        simp [List.filter_cons, h]

/-- C7 (amended).  part_001's summary handler does behave as claimed: an
omitted `from` becomes the zero `time.Time` (the minimum instant, `0` in
the model) and an omitted `to` becomes the current time, so with both
omitted the handler returns the totals of every stored entry with
`requestedAt ≤ now`.  (src/api/main.go diverges: see the counterexample —
its omitted `to` is the zero time.)  part_001's store is untagged, so those
totals all sit in the default bucket and the fallback bucket is
constantly zero. -/
theorem partOne_summary_open_bounds (store : List (String × PartOne.Payment))
    (fromParam toParam : Option ℕ) (now : ℕ) :
    (PartOne.paymentsSummaryHandler store fromParam toParam now).default.totalRequests
      = (store.filter (fun kv => decide (fromParam.getD 0 ≤ kv.2.requestedAt
          ∧ kv.2.requestedAt ≤ toParam.getD now))).length
    ∧ (PartOne.paymentsSummaryHandler store fromParam toParam now).default.totalAmount
      = ((store.filter (fun kv => decide (fromParam.getD 0 ≤ kv.2.requestedAt
          ∧ kv.2.requestedAt ≤ toParam.getD now))).map (fun kv => kv.2.ammount)).sum
    ∧ (PartOne.paymentsSummaryHandler store none none now).default.totalRequests
      = (store.filter (fun kv => decide (kv.2.requestedAt ≤ now))).length
    ∧ (PartOne.paymentsSummaryHandler store none none now).default.totalAmount
      = ((store.filter (fun kv => decide (kv.2.requestedAt ≤ now))).map
          (fun kv => kv.2.ammount)).sum
    ∧ (PartOne.paymentsSummaryHandler store fromParam toParam now).fallback
      = { totalRequests := 0, totalAmount := 0 } := by
  have hopen : ∀ kv : String × PartOne.Payment,
      decide ((0 : ℕ) ≤ kv.2.requestedAt ∧ kv.2.requestedAt ≤ now)
        = decide (kv.2.requestedAt ≤ now) := by
    intro kv
    simp
  refine ⟨?_, ?_, ?_, ?_, rfl⟩
  · show (store.foldl (PartOne.summaryStep (fromParam.getD 0) (toParam.getD now))
        { totalRequests := 0, totalAmount := 0 }).totalRequests = _
    rw [(partOne_summaryFold_spec store _ _ _).1]
    simp
  · show (store.foldl (PartOne.summaryStep (fromParam.getD 0) (toParam.getD now))
        { totalRequests := 0, totalAmount := 0 }).totalAmount = _
    rw [(partOne_summaryFold_spec store _ _ _).2]
    simp
  · show (store.foldl (PartOne.summaryStep 0 now)
        { totalRequests := 0, totalAmount := 0 }).totalRequests = _
    rw [(partOne_summaryFold_spec store 0 now _).1,
      List.filter_congr (fun kv _ => hopen kv)]
    simp
  · show (store.foldl (PartOne.summaryStep 0 now)
        { totalRequests := 0, totalAmount := 0 }).totalAmount = _
    rw [(partOne_summaryFold_spec store 0 now _).2,
      List.filter_congr (fun kv _ => hopen kv)]
    simp

/-- Helper: a Go map assignment leaves the key list unchanged when the key
is already present and appends the key otherwise. -/
theorem partOne_mapInsert_keys (m : List (String × PartOne.Payment)) (v : PartOne.Payment) :
    (PartOne.mapInsert m v).map Prod.fst
      = if (m.map Prod.fst).contains v.correlationId = true then m.map Prod.fst
        else m.map Prod.fst ++ [v.correlationId] := by
  unfold PartOne.mapInsert
  split
  next h =>
    rw [List.map_map]
    refine List.map_congr_left (fun kv _ => ?_)
    by_cases hk : kv.1 = v.correlationId <;> simp [hk]
  next h =>
    simp

/-- Helper: after a Go map assignment the assigned key is present. -/
theorem partOne_mapInsert_mem_keys (m : List (String × PartOne.Payment))
    (v : PartOne.Payment) :
    v.correlationId ∈ (PartOne.mapInsert m v).map Prod.fst := by
  rw [partOne_mapInsert_keys]
  split
  next h => exact List.elem_iff.mp h
  next h => exact List.mem_append_right _ (List.mem_singleton_self _)

/-- Helper: a Go map assignment preserves distinctness of the key list. -/
theorem partOne_mapInsert_nodup_keys (m : List (String × PartOne.Payment))
    (v : PartOne.Payment) (h : (m.map Prod.fst).Nodup) :
    ((PartOne.mapInsert m v).map Prod.fst).Nodup := by
  rw [partOne_mapInsert_keys]
  split
  next => exact h
  next hc =>
    refine List.nodup_append.mpr ⟨h, List.nodup_singleton _, ?_⟩
    intro a ha hb
    rw [List.mem_singleton] at hb
    subst hb
    exact hc (List.elem_iff.mpr ha)

/-- C8 (confirmed).  Inserting an outcome twice under one correlation ID
leaves each store with exactly one logical entry for that ID.  In part_001
the store is the Go map `processedPayments` (last write wins): starting
from any map state with distinct keys — every Go map state — a double
insert leaves the key exactly once.  In src/api/main.go the store is the
`payments` table whose `correlation_id` primary key rejects the duplicate
(the error is merely logged): starting from any table state respecting the
key constraint, a double insert likewise leaves exactly one row for the
ID. -/
theorem outcome_insert_idempotent (m : List (String × PartOne.Payment))
    (v v' : PartOne.Payment) (tbl : List ApiMain.OutcomeEntry)
    (e e' : ApiMain.OutcomeEntry)
    (hm : (m.map Prod.fst).Nodup)
    (hv : v'.correlationId = v.correlationId)
    (he : e'.correlationId = e.correlationId)
    (ht : (tbl.map (fun r => r.correlationId)).count e.correlationId ≤ 1) :
    ((PartOne.mapInsert (PartOne.mapInsert m v) v').map Prod.fst).count v.correlationId = 1
    ∧ ((ApiMain.insertPayment (ApiMain.insertPayment tbl e) e').map
        (fun r => r.correlationId)).count e.correlationId = 1 := by
  constructor
  · have h1 := partOne_mapInsert_nodup_keys m v hm
    have h2 := partOne_mapInsert_nodup_keys (PartOne.mapInsert m v) v' h1
    have h3 := partOne_mapInsert_mem_keys (PartOne.mapInsert m v) v'
    rw [hv] at h3
    exact List.count_eq_one_of_mem h2 h3
  · by_cases hc : (tbl.map (fun r => r.correlationId)).contains e.correlationId = true
    · have hmem : e.correlationId ∈ tbl.map (fun r => r.correlationId) :=
        List.elem_iff.mp hc
      have hcount : (tbl.map (fun r => r.correlationId)).count e.correlationId = 1 := by
        have hpos := List.count_pos_iff.mpr hmem
        omega
      have e1 : ApiMain.insertPayment tbl e = tbl := by
        unfold ApiMain.insertPayment
        rw [if_pos hc]
      have hc' : (tbl.map (fun r => r.correlationId)).contains e'.correlationId = true := by
        rw [he]
        exact hc
      have e2 : ApiMain.insertPayment tbl e' = tbl := by
        unfold ApiMain.insertPayment
        rw [if_pos hc']
      rw [e1, e2]
      exact hcount
    · have hnotmem : e.correlationId ∉ tbl.map (fun r => r.correlationId) :=
        fun hmem => hc (List.elem_iff.mpr hmem)
      have e1 : ApiMain.insertPayment tbl e = tbl ++ [e] := by
        unfold ApiMain.insertPayment
        rw [if_neg hc]
      have hkeys : (tbl ++ [e]).map (fun r => r.correlationId)
          = tbl.map (fun r => r.correlationId) ++ [e.correlationId] := by
        simp
      have hc2 : ((tbl ++ [e]).map (fun r => r.correlationId)).contains
          e'.correlationId = true := by
        rw [hkeys, he]
        exact List.elem_iff.mpr (List.mem_append_right _ (List.mem_singleton_self _))
      have e2 : ApiMain.insertPayment (tbl ++ [e]) e' = tbl ++ [e] := by
        unfold ApiMain.insertPayment
        rw [if_pos hc2]
      rw [e1, e2, hkeys, List.count_append, List.count_eq_zero_of_not_mem hnotmem]
      simp

/-- C8 (witness): both stores at concrete states — the empty map receives
`a1` twice (amounts 100 then 200) and keeps one entry; the empty table
receives `a1` twice and keeps one row. -/
theorem outcome_insert_idempotent_witness :
    ((PartOne.mapInsert
        (PartOne.mapInsert [] { correlationId := "a1", ammount := 100, requestedAt := 1 })
        { correlationId := "a1", ammount := 200, requestedAt := 2 }).map Prod.fst).count
      "a1" = 1
    ∧ ((ApiMain.insertPayment
        (ApiMain.insertPayment []
          { correlationId := "a1", amount := 100, processor := false, requestedAt := 1 })
        { correlationId := "a1", amount := 200, processor := true, requestedAt := 2 }).map
          (fun r => r.correlationId)).count "a1" = 1 :=
  outcome_insert_idempotent []
    { correlationId := "a1", ammount := 100, requestedAt := 1 }
    { correlationId := "a1", ammount := 200, requestedAt := 2 } []
    { correlationId := "a1", amount := 100, processor := false, requestedAt := 1 }
    { correlationId := "a1", amount := 200, processor := true, requestedAt := 2 }
    (by simp) rfl rfl (by simp)
